import Mathlib

/-!
Verification development for the qhy-camd camera session controller
(`qhyprocess.py`).  The Python source is shallowly embedded: driver reads
become explicit inputs, driver writes become explicit outputs or event
traces, mutable object attributes become fields of explicit state records,
and floating point temperatures/PWM values are modelled by rationals.
-/

namespace QHY

/-- Modelled from the spec: the `CoolerMode` enumeration of the missing
`constants.py` module (spec section 3 lists its members). -/
inductive CoolerMode
  | Unknown
  | Warm
  | Warming
  | Cooling
  | Locking
  | Locked
  | UVLOError
deriving DecidableEq, Repr

/-- Modelled from the spec: the `CommandStatus` taxonomy of the missing
`constants.py` module (spec section 7). -/
inductive CommandStatus
  | Succeeded
  | Failed
  | CameraNotFound
  | CameraNotIdle
  | CameraNotAcquiring
  | TemperatureOutsideLimits
deriving DecidableEq, Repr

/-- Driver entry points that the embedded operations may invoke, used to
record call traces for the locking discipline claims. -/
inductive DriverFn
  | getParamCurTemp
  | getParamCurPwm
  | getParamUvloStatus
  | getParamCooler
  | setParamManualPwm
  | setParamCooler
  | setParamGain
  | setParamOffset
  | setParamExposureUs
  | setParamGps
  | resetFlashUvloError
  | setStreamMode
  | initCamera
  | setResolution
  | setBitsMode
  | beginLive
  | getLiveFrame
  | expSingleFrame
  | getSingleFrame
  | cancelExposingAndReadout
  | stopLive
  | closeDevice
  | preciseExposureInfo
  | rollingShutterEndOffset
  | getSdkVersion
  | initResource
  | scanDevices
  | getDeviceId
  | openDevice
  | getFwVersion
  | setReadMode
  | getReadModeName
  | getChipInfo
  | getEffectiveArea
  | releaseResource
  | setParamUsbTraffic
deriving DecidableEq, Repr

/-- Events recorded while an operation runs: acquiring/releasing the driver
lock (`with self._driver_lock`) and the individual driver calls. -/
inductive Ev
  | acquire
  | release
  | call (fn : DriverFn)
deriving DecidableEq, Repr

/-- Scan a trace keeping the current lock depth; every driver call must
happen at positive depth. -/
def lockedScan : ℕ → List Ev → Bool
  | _, [] => true
  | d, Ev.acquire :: rest => lockedScan (d + 1) rest
  | d, Ev.release :: rest => lockedScan (d - 1) rest
  | d, Ev.call _ :: rest => decide (0 < d) && lockedScan d rest

/-- Every driver call in the trace happens while the driver lock is held. -/
def allCallsLocked (t : List Ev) : Bool := lockedScan 0 t

/-- A trace fragment consisting of driver calls only. -/
def onlyCalls : List Ev → Bool
  | [] => true
  | Ev.call _ :: rest => onlyCalls rest
  | _ => false

/-- Values read from the driver during one `update_cooler` poll tick:
`CURTEMP`, `CURPWM`, the truncated `UVLO_STATUS` register, and the
`COOLER` closed-loop target (read only in the locked/locking branch). -/
structure CoolerInput where
  temperature : ℚ
  pwm : ℚ
  uvlo : ℤ
  target : ℚ
deriving DecidableEq, Repr

/-- Result of one `update_cooler` tick: stored mode/temperature/pwm, the
`MANUALPWM` write issued (if any), and the `COOLER` target write issued
(if any). -/
structure CoolerResult where
  mode : CoolerMode
  temperature : ℚ
  pwm : ℚ
  pwmCommand : Option ℚ
  coolerCommand : Option ℚ
deriving DecidableEq, Repr

/-- `QHYInterface.update_cooler` (qhyprocess.py lines 164-206), with the
driver reads supplied as `inp` and the driver writes returned as commands.
`step` is `config.cooler_pwm_step`, `setpoint` is `self._cooler_setpoint`. -/
def update_cooler (step : ℚ) (setpoint : Option ℚ) (inp : CoolerInput) : CoolerResult :=
  if inp.uvlo = 2 ∨ inp.uvlo = 3 ∨ inp.uvlo = 9 then
    ⟨CoolerMode.UVLOError, inp.temperature, inp.pwm, none, none⟩
  else
    match setpoint with
    | none =>
      if inp.pwm > 0 then
        ⟨CoolerMode.Warming, inp.temperature, inp.pwm, some (max 0 (inp.pwm - step)), none⟩
      else
        ⟨CoolerMode.Warm, inp.temperature, inp.pwm, none, none⟩
    | some sp =>
      let temp_delta := |inp.temperature - sp|
      if temp_delta > 5 then
        if inp.temperature > sp then
          ⟨CoolerMode.Cooling, inp.temperature, inp.pwm, some (min 255 (inp.pwm + step)), none⟩
        else
          ⟨CoolerMode.Warming, inp.temperature, inp.pwm, some (max 0 (inp.pwm - step)), none⟩
      else
        let mode := if temp_delta < 1/2 then CoolerMode.Locked else CoolerMode.Locking
        if |inp.target - sp| > 1/10 then
          ⟨mode, inp.temperature, inp.pwm, none, some sp⟩
        else
          ⟨mode, inp.temperature, inp.pwm, none, none⟩

/-- The cooler rules exactly as worded in spec section 4.2: UVLO values
`{2,3,9}` force `UVLOError` with no PWM action; no setpoint ramps PWM down
(`Warming` while PWM positive, else `Warm`); a delta above 5 ramps PWM up
(`Cooling`) or down (`Warming`) by one step clamped to `[0,255]`; otherwise
the mode is `Locked` below half a degree and `Locking` elsewhere, with no
PWM command.  Returns the (mode, MANUALPWM command) pair. -/
def cooler_mode_spec (step : ℚ) (setpoint : Option ℚ) (temperature pwm : ℚ) (uvlo : ℤ) :
    CoolerMode × Option ℚ :=
  if uvlo = 2 ∨ uvlo = 3 ∨ uvlo = 9 then
    (CoolerMode.UVLOError, none)
  else
    match setpoint with
    | none =>
      if pwm > 0 then (CoolerMode.Warming, some (max 0 (pwm - step)))
      else (CoolerMode.Warm, none)
    | some sp =>
      if |temperature - sp| > 5 then
        if temperature > sp then (CoolerMode.Cooling, some (min 255 (pwm + step)))
        else (CoolerMode.Warming, some (max 0 (pwm - step)))
      else if |temperature - sp| < 1/2 then (CoolerMode.Locked, none)
      else (CoolerMode.Locking, none)

/-- C1: on every poll tick the cooler mode and the PWM command issued by
`update_cooler` are the deterministic function of
(setpoint, temperature, pwm, uvlo) given in spec section 4.2, and the two
concrete examples of the claim hold: setpoint `-10`, temperature `-9.6`,
no UVLO gives `Locked` with no PWM command, and setpoint `-10`,
temperature `-4` gives `Cooling` with the PWM raised by one step clamped
at 255. -/
theorem C1_cooler_state_machine :
    (∀ (step : ℚ) (setpoint : Option ℚ) (inp : CoolerInput),
      ((update_cooler step setpoint inp).mode, (update_cooler step setpoint inp).pwmCommand) =
        cooler_mode_spec step setpoint inp.temperature inp.pwm inp.uvlo) ∧
    (∀ (step pwm target : ℚ),
      (update_cooler step (some (-10)) ⟨-9.6, pwm, 0, target⟩).mode = CoolerMode.Locked ∧
      (update_cooler step (some (-10)) ⟨-9.6, pwm, 0, target⟩).pwmCommand = none) ∧
    (∀ (step pwm target : ℚ),
      (update_cooler step (some (-10)) ⟨-4, pwm, 0, target⟩).mode = CoolerMode.Cooling ∧
      (update_cooler step (some (-10)) ⟨-4, pwm, 0, target⟩).pwmCommand =
        some (min 255 (pwm + step))) := by
  refine ⟨?_, ?_, ?_⟩
  · intro step setpoint inp
    rcases setpoint with _ | sp <;>
      simp only [update_cooler, cooler_mode_spec] <;>
      split_ifs <;> rfl
  · intro step pwm target
    have h : |(2 : ℚ)/5| = 2/5 := abs_of_pos (by norm_num)
    constructor <;>
      · simp only [update_cooler]
        norm_num [h]
        split_ifs <;> rfl
  · intro step pwm target
    constructor <;>
      · simp only [update_cooler]
        norm_num

/-- Driver calls of one `update_cooler` tick, in source order: the three
unconditional reads under the lock, then the branch-dependent writes. -/
def update_cooler_calls (setpoint : Option ℚ) (inp : CoolerInput) : List Ev :=
  [Ev.call DriverFn.getParamCurTemp, Ev.call DriverFn.getParamCurPwm,
   Ev.call DriverFn.getParamUvloStatus] ++
  (if inp.uvlo = 2 ∨ inp.uvlo = 3 ∨ inp.uvlo = 9 then []
   else
     match setpoint with
     | none =>
       if inp.pwm > 0 then [Ev.call DriverFn.setParamManualPwm] else []
     | some sp =>
       if |inp.temperature - sp| > 5 then [Ev.call DriverFn.setParamManualPwm]
       else
         [Ev.call DriverFn.getParamCooler] ++
           (if |inp.target - sp| > 1/10 then [Ev.call DriverFn.setParamCooler] else []))

/-- Event trace of `update_cooler`: the entire tick body runs inside
`with self._driver_lock` (qhyprocess.py line 166). -/
def update_cooler_trace (setpoint : Option ℚ) (inp : CoolerInput) : List Ev :=
  Ev.acquire :: update_cooler_calls setpoint inp ++ [Ev.release]

/-- Event trace of `QHYInterface.reset_uvlo` (lines 158-162): a
`GetQHYCCDParam` read and possibly the reset call, with no lock taken. -/
def reset_uvlo_trace (uvlo : ℤ) : List Ev :=
  Ev.call DriverFn.getParamUvloStatus ::
    (if uvlo = 2 ∨ uvlo = 3 ∨ uvlo = 9 then [Ev.call DriverFn.resetFlashUvloError] else [])

/-- Persistent counter file contents (`expcount_path` JSON record). -/
structure PersistFile where
  exposure_count : ℕ
  exposure_reference : String
deriving DecidableEq, Repr

/-- The counter-loading part of `QHYInterface.__init__` (lines 131-140):
a successfully parsed file yields its stored count and reference, any
failure (missing or unparsable file, modelled as `none`) yields count 0
and the current date string. -/
def load_counter (file : Option PersistFile) (today : String) : ℕ × String :=
  match file with
  | some data => (data.exposure_count, data.exposure_reference)
  | none => (0, today)

/-- The mutable session state of `QHYInterface` touched by the commands and
the acquisition worker.  `frames` lists the `exposure_count` tags of the
frame records pushed to the processing queue, abstracting the pixel data. -/
structure CamState where
  is_acquiring : Bool
  exposure_time : ℚ
  gain : ℚ
  offset : ℚ
  stream_frames : Bool
  cooler_setpoint : Option ℚ
  sequence_frame_limit : ℕ
  sequence_frame_count : ℕ
  exposure_count : ℕ
  exposure_count_reference : String
  stop_acquisition : Bool
  frames : List ℕ
deriving DecidableEq, Repr

/-- Configuration fields used by the session state (config.py). -/
structure Config where
  gain : ℚ
  offset : ℚ
  cooler_setpoint : Option ℚ
deriving DecidableEq, Repr

/-- The state part of `QHYInterface.__init__`: exposure time 1, gain and
offset from config, streaming on, counters from the persistent file. -/
def init_interface (cfg : Config) (file : Option PersistFile) (today : String) : CamState :=
  { is_acquiring := false
    exposure_time := 1
    gain := cfg.gain
    offset := cfg.offset
    stream_frames := true
    cooler_setpoint := cfg.cooler_setpoint
    sequence_frame_limit := 0
    sequence_frame_count := 0
    exposure_count := (load_counter file today).1
    exposure_count_reference := (load_counter file today).2
    stop_acquisition := false
    frames := [] }

/-- `temperature is not None and (temperature < -20 or temperature > 30)`
(line 529). -/
def temperature_outside_limits : Option ℚ → Bool
  | some t => decide (t < -20) || decide (t > 30)
  | none => false

/-- `QHYInterface.set_target_temperature` (lines 527-536): out-of-range
setpoints are rejected, otherwise the setpoint is stored unconditionally
(no idle check) and the command succeeds. -/
def set_target_temperature (s : CamState) (temperature : Option ℚ) :
    CommandStatus × CamState :=
  if temperature_outside_limits temperature then
    (CommandStatus.TemperatureOutsideLimits, s)
  else
    (CommandStatus.Succeeded, { s with cooler_setpoint := temperature })

/-- `QHYInterface.set_exposure` (lines 570-579): rejected with
`CameraNotIdle` while acquiring, otherwise the duration is stored. -/
def set_exposure (s : CamState) (exposure : ℚ) : CommandStatus × CamState :=
  if s.is_acquiring then (CommandStatus.CameraNotIdle, s)
  else (CommandStatus.Succeeded, { s with exposure_time := exposure })

/-- `QHYInterface.set_gain` (lines 538-552): rejected while acquiring;
otherwise the gain attribute is stored first and the driver write follows,
its success (`driver_ok`) deciding the returned status. -/
def set_gain (s : CamState) (gain : ℚ) (driver_ok : Bool) : CommandStatus × CamState :=
  if s.is_acquiring then (CommandStatus.CameraNotIdle, s)
  else
    let s1 := { s with gain := gain }
    if driver_ok then (CommandStatus.Succeeded, s1) else (CommandStatus.Failed, s1)

/-- Event trace of `set_gain`: the `SetQHYCCDParam` call on line 544 is
made without taking `self._driver_lock`. -/
def set_gain_trace (s : CamState) : List Ev :=
  if s.is_acquiring then [] else [Ev.call DriverFn.setParamGain]

/-- `QHYInterface.set_offset` (lines 554-568), same shape as `set_gain`. -/
def set_offset (s : CamState) (offset : ℚ) (driver_ok : Bool) : CommandStatus × CamState :=
  if s.is_acquiring then (CommandStatus.CameraNotIdle, s)
  else
    let s1 := { s with offset := offset }
    if driver_ok then (CommandStatus.Succeeded, s1) else (CommandStatus.Failed, s1)

/-- Event trace of `set_offset`: the `SetQHYCCDParam` call on line 560 is
made without taking `self._driver_lock`. -/
def set_offset_trace (s : CamState) : List Ev :=
  if s.is_acquiring then [] else [Ev.call DriverFn.setParamOffset]

/-- `QHYInterface.set_frame_streaming` (lines 581-620): rejected while
acquiring; a no-op when the requested mode is already set; otherwise a
locked block of driver calls whose results are `driver_ok 0..4`, storing
the new mode once the stream-mode write succeeded. -/
def set_frame_streaming (s : CamState) (stream : Bool) (use_gpsbox : Bool)
    (driver_ok : ℕ → Bool) : CommandStatus × CamState :=
  if s.is_acquiring then (CommandStatus.CameraNotIdle, s)
  else if s.stream_frames = stream then (CommandStatus.Succeeded, s)
  else if !driver_ok 0 then (CommandStatus.Failed, s)
  else
    let s1 := { s with stream_frames := stream }
    if !driver_ok 1 then (CommandStatus.Failed, s1)
    else if !driver_ok 2 then (CommandStatus.Failed, s1)
    else if !driver_ok 3 then (CommandStatus.Failed, s1)
    else if use_gpsbox && !driver_ok 4 then (CommandStatus.Failed, s1)
    else (CommandStatus.Succeeded, s1)

/-- Event trace of `set_frame_streaming` on the rejecting and no-op paths
(the only ones claim C6 is about): no driver call is made before the
`is_acquiring` check. -/
def set_frame_streaming_entry_trace (s : CamState) (stream : Bool) : List Ev :=
  if s.is_acquiring then []
  else if s.stream_frames = stream then []
  else [Ev.acquire]

/-- `QHYInterface.start_sequence` (lines 622-647): rejected while
acquiring; otherwise stores the frame limit, zeroes the per-sequence
count, clears the stop flags and starts the worker thread. -/
def start_sequence (s : CamState) (count : ℕ) : CommandStatus × CamState :=
  if s.is_acquiring then (CommandStatus.CameraNotIdle, s)
  else
    (CommandStatus.Succeeded,
      { s with
        sequence_frame_limit := count
        sequence_frame_count := 0
        stop_acquisition := false
        is_acquiring := true })

/-- `QHYInterface.stop_sequence` (lines 649-661). -/
def stop_sequence (s : CamState) : CommandStatus × CamState :=
  if !s.is_acquiring || s.stop_acquisition then (CommandStatus.CameraNotAcquiring, s)
  else
    (CommandStatus.Succeeded,
      { s with sequence_frame_count := 0, stop_acquisition := true })

/-- Current lock depth after a trace (`with self._driver_lock` nesting). -/
def lockDepth : ℕ → List Ev → ℕ
  | d, [] => d
  | d, Ev.acquire :: rest => lockDepth (d + 1) rest
  | d, Ev.release :: rest => lockDepth (d - 1) rest
  | d, Ev.call _ :: rest => lockDepth d rest

/-- A trace whose driver calls all happen under the lock and that returns
the lock to its starting depth; such traces compose by concatenation. -/
def lockedFrom0 (l : List Ev) : Prop :=
  allCallsLocked l = true ∧ lockDepth 0 l = 0

/-- The streaming download of one frame (lines 271-279): the driver is
polled for a live frame until it reports success or a stop is observed,
the lock held only for the single poll attempt and released between
attempts. -/
def live_poll_trace (attempts : ℕ) : List Ev :=
  (List.replicate attempts
    [Ev.acquire, Ev.call DriverFn.getLiveFrame, Ev.release]).flatten

/-- Driver calls of one acquisition-loop iteration (lines 252-290):
streaming mode polls `GetQHYCCDLiveFrame` (`it.1` attempts); single-shot
mode triggers `ExpQHYCCDSingleFrame` and, when the trigger succeeded
(`it.2`), performs one blocking `GetQHYCCDSingleFrame` download — each
call in its own locked block. -/
def exposure_iteration_trace (stream : Bool) (it : ℕ × Bool) : List Ev :=
  if stream then live_poll_trace it.1
  else
    [Ev.acquire, Ev.call DriverFn.expSingleFrame, Ev.release] ++
      (if it.2 then [Ev.acquire, Ev.call DriverFn.getSingleFrame, Ev.release] else [])

/-- Full driver-call trace of `__run_exposure_sequence` (lines 208-346):
the locked exposure write; unless it failed, the locked `BeginQHYCCDLive`
when streaming; unless that failed, the locked timing and rolling-shutter
queries and then the loop iterations (`iterations` carries each ran
iteration's poll attempts / download flag); and on every path the
cleanup block of lines 331-346. -/
def run_exposure_sequence_trace (stream exposure_ok begin_ok : Bool)
    (iterations : List (ℕ × Bool)) : List Ev :=
  ([Ev.acquire, Ev.call DriverFn.setParamExposureUs, Ev.release] ++
    (if !exposure_ok then []
     else
       (if stream then [Ev.acquire, Ev.call DriverFn.beginLive, Ev.release] else []) ++
         (if stream && !begin_ok then []
          else
            [Ev.acquire, Ev.call DriverFn.preciseExposureInfo, Ev.release] ++
              ([Ev.acquire, Ev.call DriverFn.rollingShutterEndOffset, Ev.release] ++
                (iterations.map (exposure_iteration_trace stream)).flatten)))) ++
    (if stream then
       [Ev.acquire, Ev.call DriverFn.cancelExposingAndReadout,
        Ev.call DriverFn.stopLive, Ev.release]
     else [])

/-- Driver calls of `set_frame_streaming` (lines 581-620): after the idle
and no-op checks, one `with self._driver_lock` block covers the
stream-mode write and, as far as each prior call succeeded, the re-init,
resolution, bit-depth and GPS calls. -/
def set_frame_streaming_trace (s : CamState) (stream use_gpsbox : Bool)
    (driver_ok : ℕ → Bool) : List Ev :=
  if s.is_acquiring then []
  else if s.stream_frames = stream then []
  else
    Ev.acquire ::
      (Ev.call DriverFn.setStreamMode ::
        (if !driver_ok 0 then []
         else Ev.call DriverFn.initCamera ::
           (if !driver_ok 1 then []
            else Ev.call DriverFn.setResolution ::
              (if !driver_ok 2 then []
               else Ev.call DriverFn.setBitsMode ::
                 (if !driver_ok 3 then []
                  else if use_gpsbox then [Ev.call DriverFn.setParamGps] else []))))) ++
      [Ev.release]

/-- Driver calls of the main body of `initialize` (lines 367-511) in
source order, each step attempted only as far as every prior step
succeeded (`ok i`); the device enumeration reads `id_reads` ids and a
match (`found`) opens the device. -/
def initialize_main_calls (ok : ℕ → Bool) (id_reads : ℕ) (found use_gpsbox : Bool) :
    List Ev :=
  Ev.call DriverFn.getSdkVersion ::
    (if !ok 0 then []
     else Ev.call DriverFn.initResource ::
       (if !ok 1 then []
        else Ev.call DriverFn.scanDevices ::
          (List.replicate id_reads (Ev.call DriverFn.getDeviceId) ++
            (if !found then []
             else Ev.call DriverFn.openDevice ::
               Ev.call DriverFn.getFwVersion ::
                 (if !ok 2 then []
                  else Ev.call DriverFn.setReadMode ::
                    (if !ok 3 then []
                     else Ev.call DriverFn.getReadModeName ::
                       (if !ok 4 then []
                        else Ev.call DriverFn.setStreamMode ::
                          (if !ok 5 then []
                           else Ev.call DriverFn.initCamera ::
                             (if !ok 6 then []
                              else Ev.call DriverFn.getChipInfo ::
                                (if !ok 7 then []
                                 else
                                   (if use_gpsbox then [Ev.call DriverFn.setParamGps]
                                    else []) ++
                                     (if use_gpsbox && !ok 8 then []
                                      else Ev.call DriverFn.setParamGain ::
                                        (if !ok 9 then []
                                         else Ev.call DriverFn.setParamOffset ::
                                           (if !ok 10 then []
                                            else Ev.call DriverFn.setParamUsbTraffic ::
                                              (if !ok 11 then []
                                               else Ev.call DriverFn.setResolution ::
                                                 (if !ok 12 then []
                                                  else Ev.call DriverFn.setBitsMode ::
                                                    (if !ok 13 then []
                                                     else [Ev.call
                                                       DriverFn.getEffectiveArea]))))))))))))))))

/-- Driver calls of the `finally` block of `initialize` (lines 515-525):
best-effort close when initialization did not complete but a device was
opened, then the unconditional resource release. -/
def initialize_final_calls (initialized handle_open : Bool) : List Ev :=
  (if !initialized && handle_open then [Ev.call DriverFn.closeDevice] else []) ++
    [Ev.call DriverFn.releaseResource]

/-- Full driver-call trace of `initialize` (lines 348-525): the whole
body, `finally` included, runs inside one `with self._driver_lock` block
(line 352). -/
def initialize_trace (ok : ℕ → Bool) (id_reads : ℕ)
    (found initialized handle_open use_gpsbox : Bool) : List Ev :=
  Ev.acquire ::
    (initialize_main_calls ok id_reads found use_gpsbox ++
      initialize_final_calls initialized handle_open) ++ [Ev.release]

/-- Outcome of one iteration of the acquisition loop body
(`__run_exposure_sequence`, lines 252-330), abstracting the driver and
the external stop signal: `ok` is a successfully downloaded and pushed
frame; `extStop` is the `while` condition observing a stop at the loop
top; `stopMid` is the post-download stop check discarding the frame
(lines 278-290); `failed` is a driver trigger/download failure breaking
out of the loop. -/
inductive IterOutcome
  | ok
  | extStop
  | stopMid
  | failed
deriving DecidableEq, Repr

/-- The tail of a successful loop iteration (lines 294-330): push the
frame record tagged with the current `exposure_count`, increment the
persistent and per-sequence counters, and request a stop once a positive
frame limit has been reached (`0 < limit <= count`). -/
def push_frame (s : CamState) : CamState :=
  let s1 := { s with
    frames := s.frames ++ [s.exposure_count]
    exposure_count := s.exposure_count + 1
    sequence_frame_count := s.sequence_frame_count + 1 }
  if 0 < s1.sequence_frame_limit ∧ s1.sequence_frame_limit ≤ s1.sequence_frame_count then
    { s1 with stop_acquisition := true }
  else s1

/-- The acquisition loop (lines 252-330) driven by a list of iteration
outcomes: the loop first checks `self._stop_acquisition`, then the
iteration either completes a frame (`ok`) and continues, or exits the
loop (`extStop`, `stopMid`, `failed`) leaving the state unchanged. -/
def run_loop : List IterOutcome → CamState → CamState
  | [], s => s
  | o :: rest, s =>
    if s.stop_acquisition then s
    else
      match o with
      | IterOutcome.ok => run_loop rest (push_frame s)
      | IterOutcome.extStop => s
      | IterOutcome.stopMid => s
      | IterOutcome.failed => s

/-- Result of the acquisition worker: the final session state, the record
written to the persistent counter file, and the driver calls made by the
cleanup block. -/
structure WorkerResult where
  state : CamState
  saved : PersistFile
  final_calls : List Ev
deriving DecidableEq, Repr

/-- The `finally` block of `__run_exposure_sequence` (lines 331-346):
when streaming, cancel the in-flight exposure and stop the live session
under the driver lock; write the current counters to the counter file;
clear the stop flag.  The worker thread then exits, so `is_acquiring`
becomes false. -/
def sequence_cleanup (s : CamState) : WorkerResult :=
  { state := { s with stop_acquisition := false, is_acquiring := false }
    saved := { exposure_count := s.exposure_count
               exposure_reference := s.exposure_count_reference }
    final_calls :=
      if s.stream_frames then
        [Ev.acquire, Ev.call DriverFn.cancelExposingAndReadout,
         Ev.call DriverFn.stopLive, Ev.release]
      else [] }

/-- The whole worker `__run_exposure_sequence`: the `try` body is either
cut short by a setup failure (`setup_ok = false`: the exposure write,
`BeginQHYCCDLive` or an exception before the loop) or runs the loop; the
`finally` cleanup runs on every path. -/
def run_exposure_sequence (setup_ok : Bool) (outcomes : List IterOutcome)
    (s : CamState) : WorkerResult :=
  if setup_ok then sequence_cleanup (run_loop outcomes s) else sequence_cleanup s

/-- Effective (non-overscan) pixel rectangle reported by
`GetQHYCCDEffectiveArea`. -/
structure EffectiveArea where
  x : ℕ
  y : ℕ
  width : ℕ
  height : ℕ
deriving DecidableEq, Repr

/-- Stored geometry bounds. -/
structure Geometry where
  image_x1 : ℕ
  image_x2 : ℕ
  image_y1 : ℕ
  image_y2 : ℕ
deriving DecidableEq, Repr

/-- The geometry-bound assignments at the end of `initialize`
(qhyprocess.py lines 501-504).  Note the Python conditional expression on
line 503 parses as `(effective_y.value + 2) if use_gpsbox else 1`. -/
def compute_geometry (use_gpsbox : Bool) (e : EffectiveArea) : Geometry :=
  { image_x1 := e.x + 1
    image_x2 := e.x + e.width
    image_y1 := if use_gpsbox then e.y + 2 else 1
    image_y2 := e.y + e.height }

/-- The fields of `QHYInterface` that `shutdown` touches: whether
`self._driver` is still set, the stored handle (abstracted to a tag), and
whether an acquisition thread object exists. -/
structure DeviceState where
  driver_loaded : Bool
  handle : Option ℕ
  acquisition_thread : Bool
deriving DecidableEq, Repr

/-- Result of a Python call: a value or a raised exception. -/
inductive PyResult (α : Type)
  | ok (a : α)
  | exn
deriving DecidableEq, Repr

/-- `QHYInterface.shutdown` (lines 693-709): every path dereferences
`self._driver` (`CancelQHYCCDExposingAndReadout` when a thread exists,
then `CloseQHYCCD`), so a cleared driver raises an `AttributeError`
before any driver call; on success the device is closed, `self._driver`
is set to `None`, and `self._handle` is left unchanged. -/
def shutdown (s : DeviceState) : PyResult (CommandStatus × DeviceState × List Ev) :=
  if !s.driver_loaded then PyResult.exn
  else
    PyResult.ok
      (CommandStatus.Succeeded,
       { s with driver_loaded := false, acquisition_thread := false },
       (if s.acquisition_thread then
          [Ev.acquire, Ev.call DriverFn.cancelExposingAndReadout, Ev.release]
        else []) ++
         [Ev.acquire, Ev.call DriverFn.closeDevice, Ev.release])

/-- Concrete idle session state used to instantiate theorems. -/
def sampleIdle : CamState :=
  ⟨false, 1, 10, 20, true, none, 0, 0, 0, "2024-01-01", false, []⟩

/-- Concrete acquiring session state used to instantiate theorems. -/
def sampleAcquiring : CamState :=
  ⟨true, 1, 10, 20, true, none, 0, 0, 7, "2024-01-01", false, []⟩

theorem onlyCalls_append (l1 l2 : List Ev) :
    onlyCalls (l1 ++ l2) = (onlyCalls l1 && onlyCalls l2) := by
  induction l1 with
  | nil => simp [onlyCalls]
  | cons e t ih =>
    cases e <;> simp [onlyCalls, ih]

theorem lockedScan_calls (l : List Ev) (h : onlyCalls l = true) :
    ∀ d : ℕ, 0 < d → lockedScan d (l ++ [Ev.release]) = true := by
  induction l with
  | nil =>
    intro d _
    simp [lockedScan]
  | cons e t ih =>
    intro d hd
    cases e with
    | acquire => simp [onlyCalls] at h
    | release => simp [onlyCalls] at h
    | call fn =>
      simp only [onlyCalls] at h
      simp only [List.cons_append, lockedScan, List.append_eq]
      rw [ih h d hd]
      simpa using hd

theorem allCallsLocked_wrap (l : List Ev) (h : onlyCalls l = true) :
    allCallsLocked (Ev.acquire :: l ++ [Ev.release]) = true := by
  simp only [allCallsLocked, lockedScan]
  exact lockedScan_calls l h 1 (by norm_num)

theorem update_cooler_calls_onlyCalls (setpoint : Option ℚ) (inp : CoolerInput) :
    onlyCalls (update_cooler_calls setpoint inp) = true := by
  rcases setpoint with _ | sp <;>
    simp only [update_cooler_calls] <;>
    split_ifs <;> rfl

theorem lockDepth_append (l1 : List Ev) :
    ∀ (l2 : List Ev) (d : ℕ), lockDepth d (l1 ++ l2) = lockDepth (lockDepth d l1) l2 := by
  induction l1 with
  | nil => intro l2 d; rfl
  | cons e t ih =>
    intro l2 d
    cases e <;> simp [lockDepth, ih]

theorem lockedScan_append (l1 : List Ev) :
    ∀ (l2 : List Ev) (d : ℕ),
      lockedScan d (l1 ++ l2) = (lockedScan d l1 && lockedScan (lockDepth d l1) l2) := by
  induction l1 with
  | nil => intro l2 d; simp [lockedScan, lockDepth]
  | cons e t ih =>
    intro l2 d
    cases e <;> simp [lockedScan, lockDepth, ih, Bool.and_assoc]

theorem lockDepth_onlyCalls (l : List Ev) (h : onlyCalls l = true) :
    ∀ d, lockDepth d l = d := by
  induction l with
  | nil => intro d; rfl
  | cons e t ih =>
    intro d
    cases e with
    | acquire => simp [onlyCalls] at h
    | release => simp [onlyCalls] at h
    | call f =>
      simp only [onlyCalls] at h
      simp [lockDepth, ih h]

theorem lockedFrom0_append {l1 l2 : List Ev}
    (h1 : lockedFrom0 l1) (h2 : lockedFrom0 l2) : lockedFrom0 (l1 ++ l2) := by
  obtain ⟨a1, d1⟩ := h1
  obtain ⟨a2, d2⟩ := h2
  simp only [allCallsLocked] at a1 a2
  constructor
  · simp only [allCallsLocked, lockedScan_append, d1, a1, a2, Bool.true_and]
  · rw [lockDepth_append, d1, d2]

theorem lockedFrom0_join (ls : List (List Ev)) :
    (∀ l ∈ ls, lockedFrom0 l) → lockedFrom0 ls.flatten := by
  induction ls with
  | nil => intro _; exact ⟨rfl, rfl⟩
  | cons x t ih =>
    intro h
    rw [List.flatten_cons]
    exact lockedFrom0_append (h x (by simp)) (ih fun l hl => h l (by simp [hl]))

theorem lockedFrom0_block (l : List Ev) (h : onlyCalls l = true) :
    lockedFrom0 (Ev.acquire :: l ++ [Ev.release]) := by
  refine ⟨allCallsLocked_wrap l h, ?_⟩
  show lockDepth 1 (l ++ [Ev.release]) = 0
  rw [lockDepth_append, lockDepth_onlyCalls l h 1]
  rfl

theorem onlyCalls_replicate_call (n : ℕ) (f : DriverFn) :
    onlyCalls (List.replicate n (Ev.call f)) = true := by
  induction n with
  | zero => rfl
  | succ n ih => simpa [List.replicate_succ, onlyCalls] using ih

theorem live_poll_trace_locked (attempts : ℕ) :
    lockedFrom0 (live_poll_trace attempts) := by
  apply lockedFrom0_join
  intro l hl
  rw [List.eq_of_mem_replicate hl]
  exact ⟨rfl, rfl⟩

theorem exposure_iteration_trace_locked (stream : Bool) (it : ℕ × Bool) :
    lockedFrom0 (exposure_iteration_trace stream it) := by
  unfold exposure_iteration_trace
  split_ifs with h1 h2
  · exact live_poll_trace_locked it.1
  · exact lockedFrom0_append ⟨rfl, rfl⟩ ⟨rfl, rfl⟩
  · exact lockedFrom0_append ⟨rfl, rfl⟩ ⟨rfl, rfl⟩

theorem run_exposure_sequence_trace_locked (stream exposure_ok begin_ok : Bool)
    (iterations : List (ℕ × Bool)) :
    allCallsLocked (run_exposure_sequence_trace stream exposure_ok begin_ok iterations)
      = true := by
  have hjoin : lockedFrom0 ((iterations.map (exposure_iteration_trace stream)).flatten) := by
    apply lockedFrom0_join
    intro l hl
    obtain ⟨it, _, rfl⟩ := List.mem_map.mp hl
    exact exposure_iteration_trace_locked stream it
  have h : lockedFrom0
      (run_exposure_sequence_trace stream exposure_ok begin_ok iterations) := by
    unfold run_exposure_sequence_trace
    refine lockedFrom0_append (lockedFrom0_append ⟨rfl, rfl⟩ ?_) ?_
    · split_ifs
      · exact ⟨rfl, rfl⟩
      · exact lockedFrom0_append ⟨rfl, rfl⟩ ⟨rfl, rfl⟩
      · exact lockedFrom0_append ⟨rfl, rfl⟩
          (lockedFrom0_append ⟨rfl, rfl⟩ (lockedFrom0_append ⟨rfl, rfl⟩ hjoin))
      · exact lockedFrom0_append ⟨rfl, rfl⟩ ⟨rfl, rfl⟩
      · exact lockedFrom0_append ⟨rfl, rfl⟩
          (lockedFrom0_append ⟨rfl, rfl⟩ (lockedFrom0_append ⟨rfl, rfl⟩ hjoin))
    · split_ifs <;> exact ⟨rfl, rfl⟩
  exact h.1

theorem set_frame_streaming_trace_locked (s : CamState) (stream use_gpsbox : Bool)
    (driver_ok : ℕ → Bool) :
    allCallsLocked (set_frame_streaming_trace s stream use_gpsbox driver_ok) = true := by
  unfold set_frame_streaming_trace
  split_ifs <;> decide

theorem onlyCalls_cons_call (f : DriverFn) (l : List Ev) :
    onlyCalls (Ev.call f :: l) = onlyCalls l := rfl

theorem onlyCalls_if (c : Prop) [Decidable c] (a b : List Ev)
    (ha : onlyCalls a = true) (hb : onlyCalls b = true) :
    onlyCalls (if c then a else b) = true := by
  split_ifs <;> assumption

theorem onlyCalls_append_true {a b : List Ev}
    (ha : onlyCalls a = true) (hb : onlyCalls b = true) :
    onlyCalls (a ++ b) = true := by
  rw [onlyCalls_append, ha, hb]
  rfl

theorem initialize_main_calls_onlyCalls (ok : ℕ → Bool) (id_reads : ℕ)
    (found use_gpsbox : Bool) :
    onlyCalls (initialize_main_calls ok id_reads found use_gpsbox) = true := by
  unfold initialize_main_calls
  repeat
    first
    | rfl
    | rw [onlyCalls_cons_call]
    | apply onlyCalls_if
    | apply onlyCalls_append_true
    | exact onlyCalls_replicate_call _ _

theorem initialize_final_calls_onlyCalls (initialized handle_open : Bool) :
    onlyCalls (initialize_final_calls initialized handle_open) = true := by
  unfold initialize_final_calls
  split_ifs <;> rfl

theorem initialize_trace_locked (ok : ℕ → Bool) (id_reads : ℕ)
    (found initialized handle_open use_gpsbox : Bool) :
    allCallsLocked (initialize_trace ok id_reads found initialized handle_open use_gpsbox)
      = true := by
  unfold initialize_trace
  apply allCallsLocked_wrap
  simp [onlyCalls_append, initialize_main_calls_onlyCalls,
    initialize_final_calls_onlyCalls]

theorem run_loop_of_stop (l : List IterOutcome) (s : CamState)
    (h : s.stop_acquisition = true) : run_loop l s = s := by
  cases l with
  | nil => rfl
  | cons o rest => simp [run_loop, h]

theorem push_frame_base (s : CamState) :
    (push_frame s).sequence_frame_limit = s.sequence_frame_limit ∧
    (push_frame s).sequence_frame_count = s.sequence_frame_count + 1 ∧
    (push_frame s).exposure_count = s.exposure_count + 1 ∧
    (push_frame s).frames = s.frames ++ [s.exposure_count] ∧
    (push_frame s).stream_frames = s.stream_frames ∧
    (push_frame s).exposure_count_reference = s.exposure_count_reference := by
  simp only [push_frame]
  split <;> simp

theorem push_frame_stop_hit (s : CamState)
    (h1 : 0 < s.sequence_frame_limit)
    (h2 : s.sequence_frame_limit ≤ s.sequence_frame_count + 1) :
    (push_frame s).stop_acquisition = true := by
  simp only [push_frame]
  rw [if_pos]
  exact ⟨h1, h2⟩

theorem push_frame_stop_miss (s : CamState)
    (h : ¬(0 < s.sequence_frame_limit ∧ s.sequence_frame_limit ≤ s.sequence_frame_count + 1)) :
    (push_frame s).stop_acquisition = s.stop_acquisition := by
  simp only [push_frame]
  rw [if_neg]
  exact h

theorem run_loop_ok_reaches_limit (n : ℕ) :
    ∀ s : CamState, s.stop_acquisition = false →
      0 < s.sequence_frame_limit →
      s.sequence_frame_count < s.sequence_frame_limit →
      s.sequence_frame_limit - s.sequence_frame_count ≤ n →
      (run_loop (List.replicate n IterOutcome.ok) s).sequence_frame_count =
        s.sequence_frame_limit ∧
      (run_loop (List.replicate n IterOutcome.ok) s).stop_acquisition = true ∧
      (run_loop (List.replicate n IterOutcome.ok) s).frames.length =
        s.frames.length + (s.sequence_frame_limit - s.sequence_frame_count) ∧
      (run_loop (List.replicate n IterOutcome.ok) s).sequence_frame_limit =
        s.sequence_frame_limit := by
  induction n with
  | zero =>
    intro s _ _ hlt hle
    omega
  | succ n ih =>
    intro s hstop hpos hlt hle
    rw [List.replicate_succ]
    simp only [run_loop, hstop, Bool.false_eq_true, if_false]
    obtain ⟨hlim, hcnt, _, hfr, _, _⟩ := push_frame_base s
    by_cases hc : s.sequence_frame_limit ≤ s.sequence_frame_count + 1
    · have hps : (push_frame s).stop_acquisition = true := push_frame_stop_hit s hpos hc
      rw [run_loop_of_stop _ _ hps]
      have : s.sequence_frame_limit = s.sequence_frame_count + 1 := by omega
      refine ⟨by omega, hps, ?_, by omega⟩
      rw [hfr]
      simp
      omega
    · have hps : (push_frame s).stop_acquisition = false := by
        rw [push_frame_stop_miss s (by omega)]
        exact hstop
      obtain ⟨r1, r2, r3, r4⟩ := ih (push_frame s) hps (by omega) (by omega) (by omega)
      refine ⟨by omega, r2, ?_, by omega⟩
      rw [r3, hfr]
      simp
      omega

theorem run_loop_limit0_no_stop (l : List IterOutcome) :
    ∀ s : CamState, s.sequence_frame_limit = 0 →
      (run_loop l s).stop_acquisition = s.stop_acquisition ∧
      (run_loop l s).sequence_frame_limit = 0 := by
  induction l with
  | nil => exact fun s h => ⟨rfl, h⟩
  | cons o rest ih =>
    intro s h
    by_cases hs : s.stop_acquisition = true
    · rw [run_loop_of_stop _ _ hs]
      exact ⟨rfl, h⟩
    · have hs' : s.stop_acquisition = false := by
        cases hb : s.stop_acquisition
        · rfl
        · exact absurd hb hs
      cases o with
      | ok =>
        simp only [run_loop, hs', Bool.false_eq_true, if_false]
        obtain ⟨hlim, _, _, _, _, _⟩ := push_frame_base s
        have hps : (push_frame s).stop_acquisition = s.stop_acquisition :=
          push_frame_stop_miss s (by omega)
        obtain ⟨r1, r2⟩ := ih (push_frame s) (by omega)
        exact ⟨by rw [r1, hps]; exact hs', r2⟩
      | extStop => simp [run_loop, hs', h]
      | stopMid => simp [run_loop, hs', h]
      | failed => simp [run_loop, hs', h]

theorem run_loop_limit0_runs (n : ℕ) :
    ∀ s : CamState, s.sequence_frame_limit = 0 → s.stop_acquisition = false →
      (run_loop (List.replicate n IterOutcome.ok) s).frames.length =
        s.frames.length + n := by
  induction n with
  | zero => intro s _ _; simp [run_loop]
  | succ n ih =>
    intro s hlim hstop
    rw [List.replicate_succ]
    simp only [run_loop, hstop, Bool.false_eq_true, if_false]
    obtain ⟨hl, _, _, hfr, _, _⟩ := push_frame_base s
    have hps : (push_frame s).stop_acquisition = s.stop_acquisition :=
      push_frame_stop_miss s (by omega)
    rw [ih (push_frame s) (by omega) (by rw [hps]; exact hstop), hfr]
    simp
    omega

/-- C2 counterexample: with an acquisition sequence running, `set_exposure`
returns `CameraNotIdle` (not `Succeeded`) and leaves the stored exposure
duration unchanged, refuting the claim that the command is always
accepted. -/
theorem C2_counterexample :
    (set_exposure sampleAcquiring 5).1 = CommandStatus.CameraNotIdle ∧
    (set_exposure sampleAcquiring 5).1 ≠ CommandStatus.Succeeded ∧
    (set_exposure sampleAcquiring 5).2.exposure_time = 1 := by
  decide

/-- C2 amended: `set_exposure` is rejected with `CameraNotIdle` while a
sequence is acquiring; when idle it stores the new duration and returns
`Succeeded`; `set_target_temperature` is accepted in every camera state,
acquiring included, for any in-range setpoint (and for clearing the
setpoint). -/
theorem C2_exposure_setpoint_admission (s : CamState) (e : ℚ) :
    (s.is_acquiring = true → set_exposure s e = (CommandStatus.CameraNotIdle, s)) ∧
    (s.is_acquiring = false →
      set_exposure s e = (CommandStatus.Succeeded, { s with exposure_time := e })) ∧
    (∀ t : ℚ, -20 ≤ t → t ≤ 30 →
      set_target_temperature s (some t) =
        (CommandStatus.Succeeded, { s with cooler_setpoint := some t })) ∧
    set_target_temperature s none =
      (CommandStatus.Succeeded, { s with cooler_setpoint := none }) := by
  refine ⟨?_, ?_, ?_, ?_⟩
  · intro h
    simp [set_exposure, h]
  · intro h
    simp [set_exposure, h]
  · intro t h1 h2
    have h3 : ¬t < -20 := not_lt.mpr h1
    have h4 : ¬t > 30 := not_lt.mpr h2
    simp [set_target_temperature, temperature_outside_limits, h3, h4]
  · simp [set_target_temperature, temperature_outside_limits]

/-- C2 witness instance. -/
theorem C2_witness :
    set_exposure sampleAcquiring 5 = (CommandStatus.CameraNotIdle, sampleAcquiring) ∧
    set_target_temperature sampleAcquiring (some (-10)) =
      (CommandStatus.Succeeded, { sampleAcquiring with cooler_setpoint := some (-10) }) :=
  ⟨(C2_exposure_setpoint_admission sampleAcquiring 5).1 rfl,
   (C2_exposure_setpoint_admission sampleAcquiring 5).2.2.1 (-10) (by norm_num) (by norm_num)⟩

/-- C3: a sequence started with `count = N > 0` pushes exactly `N` frame
records and sets the stop flag (the per-sequence count reaches `N`, and
supplying more iteration fuel changes nothing because the loop has
stopped); with `count = 0` the loop never sets the stop flag of its own
accord, emits one frame per successful iteration indefinitely, and exits
only when `stop_sequence` has set the stop flag or the external stop
signal is observed at the loop top. -/
theorem C3_sequence_frame_limit_behaviour :
    (∀ (N n : ℕ) (s : CamState), 0 < N → N ≤ n → s.is_acquiring = false →
      (run_loop (List.replicate n IterOutcome.ok) (start_sequence s N).2).frames.length =
        s.frames.length + N ∧
      (run_loop (List.replicate n IterOutcome.ok)
        (start_sequence s N).2).sequence_frame_count = N ∧
      (run_loop (List.replicate n IterOutcome.ok)
        (start_sequence s N).2).stop_acquisition = true) ∧
    (∀ (l : List IterOutcome) (s : CamState), s.sequence_frame_limit = 0 →
      (run_loop l s).stop_acquisition = s.stop_acquisition) ∧
    (∀ (n : ℕ) (s : CamState), s.sequence_frame_limit = 0 → s.stop_acquisition = false →
      (run_loop (List.replicate n IterOutcome.ok) s).frames.length = s.frames.length + n) ∧
    (∀ (l : List IterOutcome) (s : CamState), s.stop_acquisition = true → run_loop l s = s) ∧
    (∀ (rest : List IterOutcome) (s : CamState),
      run_loop (IterOutcome.extStop :: rest) s = s) := by
  refine ⟨?_, ?_, ?_, ?_, ?_⟩
  · intro N n s hN hn hidle
    have h1 : ((start_sequence s N).2).stop_acquisition = false := by
      simp [start_sequence, hidle]
    have h2 : ((start_sequence s N).2).sequence_frame_limit = N := by
      simp [start_sequence, hidle]
    have h3 : ((start_sequence s N).2).sequence_frame_count = 0 := by
      simp [start_sequence, hidle]
    have h4 : ((start_sequence s N).2).frames = s.frames := by
      simp [start_sequence, hidle]
    obtain ⟨r1, r2, r3, r4⟩ :=
      run_loop_ok_reaches_limit n ((start_sequence s N).2) h1 (by omega) (by omega) (by omega)
    rw [h2, h3, h4] at r3
    exact ⟨by omega, by omega, r2⟩
  · exact fun l s h => (run_loop_limit0_no_stop l s h).1
  · exact run_loop_limit0_runs
  · exact run_loop_of_stop
  · intro rest s
    cases hs : s.stop_acquisition <;> simp [run_loop, hs]

/-- C3 witness instance. -/
theorem C3_witness :
    (run_loop (List.replicate 3 IterOutcome.ok)
      (start_sequence sampleIdle 2).2).frames.length = sampleIdle.frames.length + 2 ∧
    (run_loop (List.replicate 3 IterOutcome.ok)
      (start_sequence sampleIdle 2).2).sequence_frame_count = 2 ∧
    (run_loop (List.replicate 3 IterOutcome.ok)
      (start_sequence sampleIdle 2).2).stop_acquisition = true :=
  C3_sequence_frame_limit_behaviour.1 2 3 sampleIdle (by norm_num) (by norm_num) rfl

/-- C4: constructing the interface with a counter file holding count 5 and
reference "2024-01-01" resumes the counter at 5, the first frame of the
next sequence is tagged 5 and leaves the counter at 6; a missing or
unparsable counter file yields count 0 with the current date string as
reference, and the loader is a total function (construction cannot
raise). -/
theorem C4_persistent_counter_roundtrip :
    (∀ (cfg : Config) (d : String),
      (init_interface cfg (some ⟨5, "2024-01-01"⟩) d).exposure_count = 5 ∧
      (init_interface cfg (some ⟨5, "2024-01-01"⟩) d).exposure_count_reference =
        "2024-01-01") ∧
    (∀ (cfg : Config) (d : String) (n : ℕ),
      (run_loop [IterOutcome.ok]
        (start_sequence (init_interface cfg (some ⟨5, "2024-01-01"⟩) d) n).2).exposure_count
        = 6 ∧
      (run_loop [IterOutcome.ok]
        (start_sequence (init_interface cfg (some ⟨5, "2024-01-01"⟩) d) n).2).frames
        = [5]) ∧
    (∀ (cfg : Config) (d : String),
      (init_interface cfg none d).exposure_count = 0 ∧
      (init_interface cfg none d).exposure_count_reference = d) := by
  refine ⟨fun cfg d => ⟨rfl, rfl⟩, ?_, fun cfg d => ⟨rfl, rfl⟩⟩
  intro cfg d n
  simp only [run_loop, start_sequence, init_interface, load_counter, push_frame]
  norm_num
  split_ifs <;> simp

/-- Any trace starting with a driver call is made with no lock held. -/
theorem allCallsLocked_call_head (f : DriverFn) (rest : List Ev) :
    allCallsLocked (Ev.call f :: rest) = false := rfl

/-- C5: on every exit path of the acquisition worker (setup failure,
normal completion, break on stop or driver failure, or an exception at
any intermediate state `s`), the cleanup block leaves the stop flag
false, persists the current exposure counter and reference to the
counter file, and — when streaming — cancels the in-flight exposure and
stops the live session under the driver lock; and the worker is exactly
the cleanup applied to the body's final state. -/
theorem C5_cleanup_on_every_exit :
    (∀ s : CamState,
      (sequence_cleanup s).state.stop_acquisition = false ∧
      (sequence_cleanup s).saved.exposure_count = s.exposure_count ∧
      (sequence_cleanup s).saved.exposure_reference = s.exposure_count_reference ∧
      (s.stream_frames = true →
        (sequence_cleanup s).final_calls =
          [Ev.acquire, Ev.call DriverFn.cancelExposingAndReadout,
           Ev.call DriverFn.stopLive, Ev.release]) ∧
      (s.stream_frames = false → (sequence_cleanup s).final_calls = [])) ∧
    (∀ (setup_ok : Bool) (outcomes : List IterOutcome) (s : CamState),
      run_exposure_sequence setup_ok outcomes s =
        sequence_cleanup (if setup_ok then run_loop outcomes s else s)) := by
  constructor
  · intro s
    refine ⟨rfl, rfl, rfl, ?_, ?_⟩ <;> intro h <;> simp [sequence_cleanup, h]
  · intro setup_ok outcomes s
    cases setup_ok <;> rfl

/-- C5 witness instance. -/
theorem C5_witness :
    (sequence_cleanup sampleAcquiring).state.stop_acquisition = false ∧
    (sequence_cleanup sampleAcquiring).final_calls =
      [Ev.acquire, Ev.call DriverFn.cancelExposingAndReadout,
       Ev.call DriverFn.stopLive, Ev.release] :=
  ⟨(C5_cleanup_on_every_exit.1 sampleAcquiring).1,
   (C5_cleanup_on_every_exit.1 sampleAcquiring).2.2.2.1 rfl⟩

/-- C6: while a sequence is acquiring, gain, offset and stream-mode
changes are rejected with `CameraNotIdle`, make no driver call (their
traces are empty) and leave the session state unchanged. -/
theorem C6_reject_while_acquiring (s : CamState) (g o : ℚ) (st gps dok : Bool)
    (dstream : ℕ → Bool) (h : s.is_acquiring = true) :
    set_gain s g dok = (CommandStatus.CameraNotIdle, s) ∧
    set_gain_trace s = [] ∧
    set_offset s o dok = (CommandStatus.CameraNotIdle, s) ∧
    set_offset_trace s = [] ∧
    set_frame_streaming s st gps dstream = (CommandStatus.CameraNotIdle, s) ∧
    set_frame_streaming_entry_trace s st = [] := by
  simp [set_gain, set_gain_trace, set_offset, set_offset_trace,
        set_frame_streaming, set_frame_streaming_entry_trace, h]

/-- C6 witness instance. -/
theorem C6_witness :
    set_gain sampleAcquiring 42 true = (CommandStatus.CameraNotIdle, sampleAcquiring) ∧
    set_gain_trace sampleAcquiring = [] :=
  ⟨(C6_reject_while_acquiring sampleAcquiring 42 0 false false true
      (fun _ => true) rfl).1,
   (C6_reject_while_acquiring sampleAcquiring 42 0 false false true
      (fun _ => true) rfl).2.1⟩

/-- C7 counterexample: for the effective area (x 24, y 6, width 9576,
height 6388), `image_y1` with GPS enabled is `6 + 2 = 8` while `image_y1`
without GPS is the constant `1`, so the claimed one-row relation fails. -/
theorem C7_counterexample :
    (compute_geometry true ⟨24, 6, 9576, 6388⟩).image_y1 ≠
      (compute_geometry false ⟨24, 6, 9576, 6388⟩).image_y1 + 1 := by
  decide

/-- C7 amended: the stored bounds are `image_x1 = effective_x + 1`,
`image_x2 = effective_x + effective_width`,
`image_y2 = effective_y + effective_height`, and
`image_y1 = effective_y + 2` with GPS enabled but the constant `1` with
GPS disabled; the one-extra-row relation between the two `image_y1`
values holds exactly when `effective_y = 0`. -/
theorem C7_geometry_bounds (gps : Bool) (e : EffectiveArea) :
    (compute_geometry gps e).image_x1 = e.x + 1 ∧
    (compute_geometry gps e).image_x2 = e.x + e.width ∧
    (compute_geometry gps e).image_y2 = e.y + e.height ∧
    (compute_geometry true e).image_y1 = e.y + 2 ∧
    (compute_geometry false e).image_y1 = 1 ∧
    (e.y = 0 →
      (compute_geometry true e).image_y1 = (compute_geometry false e).image_y1 + 1) := by
  refine ⟨rfl, rfl, rfl, rfl, rfl, ?_⟩
  intro h
  simp [compute_geometry, h]

/-- C7 witness instance. -/
theorem C7_witness :
    (compute_geometry true ⟨24, 0, 9576, 6388⟩).image_y1 =
      (compute_geometry false ⟨24, 0, 9576, 6388⟩).image_y1 + 1 :=
  (C7_geometry_bounds true ⟨24, 0, 9576, 6388⟩).2.2.2.2.2 rfl

/-- C8 counterexample: shutting down a session whose driver is loaded and
whose handle is tagged `42` closes the device but leaves the stored
handle field set to `42` — the handle is not cleared (the driver
reference is what gets cleared). -/
theorem C8_counterexample :
    shutdown ⟨true, some 42, false⟩ =
      PyResult.ok (CommandStatus.Succeeded, ⟨false, some 42, false⟩,
        [Ev.acquire, Ev.call DriverFn.closeDevice, Ev.release]) ∧
    (⟨false, some 42, false⟩ : DeviceState).handle = some 42 := by
  decide

/-- C8 amended: after a successful `shutdown` the driver reference is
cleared while the stored handle is left unchanged; a second invocation
raises (an `AttributeError` on the cleared driver reference) before any
driver call, so the handle is never closed twice. -/
theorem C8_shutdown_clears_driver_not_handle (s : DeviceState)
    (h : s.driver_loaded = true) :
    shutdown s =
      PyResult.ok (CommandStatus.Succeeded,
        { s with driver_loaded := false, acquisition_thread := false },
        (if s.acquisition_thread then
           [Ev.acquire, Ev.call DriverFn.cancelExposingAndReadout, Ev.release]
         else []) ++ [Ev.acquire, Ev.call DriverFn.closeDevice, Ev.release]) ∧
    ({ s with driver_loaded := false, acquisition_thread := false } : DeviceState).handle
      = s.handle ∧
    shutdown { s with driver_loaded := false, acquisition_thread := false } =
      PyResult.exn := by
  refine ⟨?_, rfl, rfl⟩
  simp [shutdown, h]

/-- C8 witness instance. -/
theorem C8_witness :
    shutdown (⟨false, some 7, false⟩ : DeviceState) = PyResult.exn :=
  (C8_shutdown_clears_driver_not_handle ⟨true, some 7, true⟩ rfl).2.2

/-- C9 counterexample: in an idle session `set_gain` issues its
`SetQHYCCDParam` driver call with the driver lock not held, refuting the
claim that every driver call is serialized by the lock. -/
theorem C9_counterexample :
    set_gain_trace sampleIdle = [Ev.call DriverFn.setParamGain] ∧
    allCallsLocked (set_gain_trace sampleIdle) = false := by
  decide

/-- C9 amended: `initialize`, `set_frame_streaming`, the cooler poll, the
acquisition worker — its body (exposure write, `BeginQHYCCDLive`, timing
queries, triggers, downloads and live-frame polls) as well as its cleanup
— and `shutdown` make all their driver calls under the driver lock; but
`set_gain` and `set_offset` issue their parameter writes — and
`reset_uvlo` its calls — without acquiring the lock. -/
theorem C9_locking_discipline :
    (∀ (setpoint : Option ℚ) (inp : CoolerInput),
      allCallsLocked (update_cooler_trace setpoint inp) = true) ∧
    (∀ s : CamState, s.is_acquiring = false →
      allCallsLocked (set_gain_trace s) = false ∧
      allCallsLocked (set_offset_trace s) = false) ∧
    (∀ uvlo : ℤ, allCallsLocked (reset_uvlo_trace uvlo) = false) ∧
    (∀ s : CamState, allCallsLocked (sequence_cleanup s).final_calls = true) ∧
    (∀ (s : DeviceState) (res : CommandStatus × DeviceState × List Ev),
      shutdown s = PyResult.ok res → allCallsLocked res.2.2 = true) ∧
    (∀ (stream exposure_ok begin_ok : Bool) (iterations : List (ℕ × Bool)),
      allCallsLocked
        (run_exposure_sequence_trace stream exposure_ok begin_ok iterations) = true) ∧
    (∀ (s : CamState) (stream use_gpsbox : Bool) (driver_ok : ℕ → Bool),
      allCallsLocked (set_frame_streaming_trace s stream use_gpsbox driver_ok) = true) ∧
    (∀ (ok : ℕ → Bool) (id_reads : ℕ) (found initialized handle_open use_gpsbox : Bool),
      allCallsLocked
        (initialize_trace ok id_reads found initialized handle_open use_gpsbox)
        = true) := by
  refine ⟨?_, ?_, ?_, ?_, ?_, run_exposure_sequence_trace_locked,
    set_frame_streaming_trace_locked, initialize_trace_locked⟩
  · intro setpoint inp
    exact allCallsLocked_wrap _ (update_cooler_calls_onlyCalls setpoint inp)
  · intro s h
    have hg : set_gain_trace s = [Ev.call DriverFn.setParamGain] := by
      simp [set_gain_trace, h]
    have ho : set_offset_trace s = [Ev.call DriverFn.setParamOffset] := by
      simp [set_offset_trace, h]
    rw [hg, ho]
    exact ⟨rfl, rfl⟩
  · intro uvlo
    exact allCallsLocked_call_head DriverFn.getParamUvloStatus _
  · intro s
    cases h : s.stream_frames <;> simp [sequence_cleanup, h, allCallsLocked, lockedScan]
  · intro s res h
    cases hd : s.driver_loaded with
    | false => simp [shutdown, hd] at h
    | true =>
      simp only [shutdown, hd, Bool.not_true, Bool.false_eq_true, if_false,
        PyResult.ok.injEq] at h
      subst h
      cases ht : s.acquisition_thread <;> simp [ht, allCallsLocked, lockedScan]

/-- C9 witness instance. -/
theorem C9_witness :
    allCallsLocked (update_cooler_trace none ⟨0, 0, 0, 0⟩) = true ∧
    allCallsLocked (set_gain_trace sampleIdle) = false ∧
    allCallsLocked (run_exposure_sequence_trace true true true [(1, true)]) = true :=
  ⟨C9_locking_discipline.1 none ⟨0, 0, 0, 0⟩,
   (C9_locking_discipline.2.1 sampleIdle rfl).1,
   C9_locking_discipline.2.2.2.2.2.1 true true true [(1, true)]⟩

/-- C10: in an idle session, `set_gain` and `set_offset` store the
requested value before the driver write, so when the driver write fails
they return `Failed` with the stored value already changed — the error
return is not atomic with respect to session state. -/
theorem C10_failed_write_after_store (s : CamState) (g o : ℚ)
    (h : s.is_acquiring = false) :
    set_gain s g false = (CommandStatus.Failed, { s with gain := g }) ∧
    (set_gain s g false).2.gain = g ∧
    set_offset s o false = (CommandStatus.Failed, { s with offset := o }) ∧
    (set_offset s o false).2.offset = o := by
  have h1 : set_gain s g false = (CommandStatus.Failed, { s with gain := g }) := by
    simp [set_gain, h]
  have h2 : set_offset s o false = (CommandStatus.Failed, { s with offset := o }) := by
    simp [set_offset, h]
  exact ⟨h1, by rw [h1], h2, by rw [h2]⟩

/-- C10 witness instance. -/
theorem C10_witness :
    set_gain sampleIdle 42 false = (CommandStatus.Failed, { sampleIdle with gain := 42 }) ∧
    (set_gain sampleIdle 42 false).2.gain = 42 :=
  ⟨(C10_failed_write_after_store sampleIdle 42 0 rfl).1,
   (C10_failed_write_after_store sampleIdle 42 0 rfl).2.1⟩

end QHY
